import Mathlib

set_option maxRecDepth 10000

/-!
Verification development for the DeepDocAI document summarizer.

Strings of the Python source are modelled as `List Char`; `Optional[int]`
parameters as `Option Int`; functions that raise as `Except (List Char) _`
where the payload is the exception message. The HTTP handler
`summarize_document` of `src/main.py` is embedded as a function from an
environment describing the request and the external world (parse outcome,
generation-service reply) to a record of the HTTP outcome plus the side
effects the claims speak about (whether extraction was invoked, whether the
saved upload was deleted).
-/

/-- Python `str.isspace`-style character test used by `str.strip()`,
restricted to the ASCII whitespace characters. -/
def pyIsSpace (c : Char) : Bool :=
  c == ' ' || c == '\t' || c == '\n' || c == '\r' || c == '\x0b' || c == '\x0c'

/-- Python `str.strip()`: drop leading and trailing whitespace. -/
def pyStrip (l : List Char) : List Char :=
  ((l.dropWhile pyIsSpace).reverse.dropWhile pyIsSpace).reverse

/-- Python `str.lower()` (ASCII case fold, character by character). -/
def pyLower (l : List Char) : List Char := l.map Char.toLower

/-- Python `"\n\n".join(parts)` as used by both extractors
(`document_parser.py`). -/
def joinBlank : List (List Char) → List Char
  | [] => []
  | [p] => p
  | p :: ps => p ++ '\n' :: '\n' :: joinBlank ps

/-- Embeds `DocumentParser._extract_docx_text` (document_parser.py:92-98):
keep each paragraph whose stripped text is truthy (non-empty), unstripped,
and join with a blank line. A DOCX document is modelled by the list of its
paragraph texts. -/
def extract_docx_text (paragraphs : List (List Char)) : List Char :=
  joinBlank (paragraphs.filter (fun p => !(pyStrip p).isEmpty))

/-- Page outcomes for the PDF extractor loop of
`DocumentParser._extract_pdf_text`: `none` models a page whose
`extract_text()` raises, `some t` a page returning text `t`. -/
def pageTexts : List (Option (List Char)) → List (List Char)
  | [] => []
  | none :: ps => pageTexts ps
  | some t :: ps => if t.isEmpty then pageTexts ps else t :: pageTexts ps

/-- Embeds `DocumentParser._extract_pdf_text` (document_parser.py:55-70):
pages whose extraction raises are skipped, pages whose text is falsy
(empty) are not appended, and the collected parts are joined with a blank
line. -/
def extract_pdf_text (pages : List (Option (List Char))) : List Char :=
  joinBlank (pageTexts pages)

/-- Character ceiling `max_chars` of `generate_summary` (main.py). -/
def max_chars : Nat := 8000

/-- Literal truncation marker appended by `generate_summary`. -/
def trunc_marker : List Char := "... [truncated]".data

/-- Truncation step of `generate_summary`:
`text = text[:max_chars] + "... [truncated]"` when `len(text) > max_chars`. -/
def truncate_text (text : List Char) : List Char :=
  if text.length > max_chars then text.take max_chars ++ trunc_marker else text

/-- Length-instruction step of `generate_summary`:
`f" Keep the summary under {max_length} words." if max_length else ""`
(Python truthiness: `None` and `0` both give the empty instruction). -/
def length_instruction (max_length : Option Int) : List Char :=
  match max_length with
  | none => []
  | some n =>
      if n = 0 then []
      else " Keep the summary under ".data ++ (toString n).data ++ " words.".data

/-- Fixed prompt text standing before the document text in the f-string of
`generate_summary`. -/
def prompt_pre (max_length : Option Int) : List Char :=
  "Please provide a concise summary of the following document.".data
    ++ length_instruction max_length ++ "\n\nDocument:\n".data

/-- Fixed prompt text standing after the document text. -/
def prompt_post : List Char := "\n\nSummary:".data

/-- Prompt construction of `generate_summary` (main.py:166-185): the
instruction sentence with the optional length instruction, the possibly
truncated document text, and the trailing summary cue. -/
def build_prompt (text : List Char) (max_length : Option Int) : List Char :=
  prompt_pre max_length ++ truncate_text text ++ prompt_post

/-- Boundary normalization in `summarize_document` (main.py:134-135):
`None if (max_length is None or max_length <= 0) else max_length`. -/
def normalize_max_length (max_length : Option Int) : Option Int :=
  match max_length with
  | none => none
  | some n => if n ≤ 0 then none else some n

/-- Reply of the generation service to the single POST of
`generate_summary`: the HTTP status code, the `response` field of the JSON
body (`result.get("response", "")`), and the raw body text used in the
error message for a non-200 status. -/
structure OllamaResponse where
  status : Nat
  response : List Char
  text : List Char
deriving DecidableEq

/-- Embeds the service-call half of `generate_summary` (main.py:187-205),
with the service's reply passed in as data: a non-200 status raises the
status-and-body message, a 200 reply whose stripped `response` field is
falsy raises the empty-response message, and otherwise the stripped
`response` field is returned. The prompt built from the (possibly
truncated) text and the length instruction is what the call sends. -/
def generate_summary (text : List Char) (max_length : Option Int)
    (resp : OllamaResponse) : Except (List Char) (List Char) :=
  let _prompt := build_prompt text max_length
  if resp.status ≠ 200 then
    .error ("Ollama API returned status ".data ++ (toString resp.status).data
      ++ ": ".data ++ resp.text)
  else
    let summary := pyStrip resp.response
    if summary.isEmpty then .error "Empty response from Ollama".data
    else .ok summary

/-- Extensions accepted by `summarize_document` (main.py:99-105). -/
def supported_exts : List (List Char) := [".pdf".data, ".docx".data, ".doc".data]

/-- Environment of one summarize request: the declared filename extension
(`Path(file.filename).suffix`, before lower-casing), the `max_length` query
parameter, the outcome of `parser.parse_document` (error message when it
raises, extracted text otherwise), and the generation service's reply. -/
structure RequestEnv where
  ext : List Char
  max_length : Option Int
  parsed : Except (List Char) (List Char)
  resp : OllamaResponse

/-- Observable outcome of one summarize request: HTTP status, detail text
(or the summary body on success), and the effects the handler performed. -/
structure SummarizeOutcome where
  status : Nat
  detail : List Char
  parseInvoked : Bool
  fileSaved : Bool
  fileDeleted : Bool
deriving DecidableEq

/-- Embeds the `/summarize` handler `summarize_document` (main.py:85-160).
Control flow follows the source: the extension check raises 400 before the
upload is saved or extraction is attempted; after the save, the `finally`
block deletes the file on every exit path, so `fileDeleted` is set on each
branch reached after the save. Note that the `HTTPException(status_code=400)`
raised for empty or whitespace-only extracted text is itself an `Exception`,
so the enclosing `except Exception` catches it and re-raises it as a 500
with detail `"Failed to parse document: 400: ..."` (Starlette renders the
caught exception as `"{status_code}: {detail}"`). -/
def summarize_document (env : RequestEnv) : SummarizeOutcome :=
  let file_ext := pyLower env.ext
  if file_ext ∈ supported_exts then
    match env.parsed with
    | .error e =>
        ⟨500, "Failed to parse document: ".data ++ e, true, true, true⟩
    | .ok text =>
        if text = [] ∨ pyStrip text = [] then
          ⟨500, "Failed to parse document: ".data ++ "400: Could not extract text from document. The file might be empty or corrupted.".data,
            true, true, true⟩
        else
          match generate_summary text (normalize_max_length env.max_length) env.resp with
          | .error e =>
              ⟨500, "Failed to generate summary: ".data ++ e, true, true, true⟩
          | .ok summary => ⟨200, summary, true, true, true⟩
  else
    ⟨400, "Unsupported file type: ".data ++ file_ext
      ++ ". Supported types: .pdf, .docx, .doc".data, false, false, false⟩

/-- Helper: an infix of a list is an infix of any right extension. -/
theorem isInfix_append_of_left {α : Type _} {l l₁ : List α} (l₂ : List α)
    (h : l <:+: l₁) : l <:+: l₁ ++ l₂ := by
  obtain ⟨s, t, rfl⟩ := h
  exact ⟨s, t ++ l₂, by simp⟩

/-- Helper: `pageTexts` distributes over list append. -/
theorem pageTexts_append (l₁ l₂ : List (Option (List Char))) :
    pageTexts (l₁ ++ l₂) = pageTexts l₁ ++ pageTexts l₂ := by
  induction l₁ with
  | nil => rfl
  | cons a l ih =>
      cases a with
      | none => simpa [pageTexts] using ih
      | some t => by_cases h : t.isEmpty <;> simp [pageTexts, h, ih]

/-- Helper: the non-success error message of `generate_summary` is never
the empty-response message. -/
theorem ollama_error_msg_ne_empty (x : List Char) :
    "Ollama API returned status ".data ++ x ≠ "Empty response from Ollama".data := by
  intro h
  have h0 : "Ollama API returned status ".data ++ x
      = 'O' :: ("llama API returned status ".data ++ x) := rfl
  have h1 : "Empty response from Ollama".data
      = 'E' :: "mpty response from Ollama".data := rfl
  rw [h0, h1] at h
  injection h with h2 _
  exact absurd h2 (by decide)

/-- C2: for extracted text of length `8000 + k` characters with `k > 0`,
the document-text portion of the built prompt is exactly the first 8000
characters followed by the literal truncation marker, independent of `k`;
for text of length at most 8000 the document-text portion is the text
unmodified. -/
theorem build_prompt_truncation (max_length : Option Int) (text short : List Char)
    (k : Nat) (hlen : text.length = 8000 + k) (hk : 0 < k)
    (hshort : short.length ≤ 8000) :
    build_prompt text max_length
        = prompt_pre max_length ++ (text.take 8000 ++ trunc_marker) ++ prompt_post
      ∧ build_prompt short max_length
        = prompt_pre max_length ++ short ++ prompt_post := by
  constructor
  · unfold build_prompt truncate_text max_chars
    rw [if_pos (show text.length > 8000 by omega)]
  · unfold build_prompt truncate_text max_chars
    rw [if_neg (show ¬ short.length > 8000 by omega)]

/-- Witness for C2 at a 8001-character text and a 2-character text. -/
theorem build_prompt_truncation_witness :
    build_prompt (List.replicate 8001 'a') none
        = prompt_pre none ++ ((List.replicate 8001 'a').take 8000 ++ trunc_marker) ++ prompt_post
      ∧ build_prompt "hi".data none = prompt_pre none ++ "hi".data ++ prompt_post :=
  build_prompt_truncation none (List.replicate 8001 'a') "hi".data 1
    (by rw [List.length_replicate]) (by decide) (by decide)

/-- C3: for every extracted text, the prompt built with `max_length = 50`
contains the characters `50` (inside the length instruction
` Keep the summary under 50 words.`), while the prompt built with
`max_length` absent is exactly the fixed template around the document text,
with an empty length instruction and no word-limit phrase in the fixed
template parts. -/
theorem build_prompt_length_instruction_cases (text : List Char) :
    ['5', '0'] <:+: build_prompt text (some 50)
      ∧ length_instruction none = []
      ∧ build_prompt text none
          = "Please provide a concise summary of the following document.\n\nDocument:\n".data
            ++ truncate_text text ++ prompt_post
      ∧ ¬ ("words".data
            <:+: "Please provide a concise summary of the following document.\n\nDocument:\n".data)
      ∧ ¬ ("words".data <:+: prompt_post)
      ∧ length_instruction (some 50) = " Keep the summary under 50 words.".data := by
  refine ⟨?_, rfl, ?_, by decide, by decide, by decide⟩
  · have h : ['5', '0'] <:+: prompt_pre (some 50) := by decide
    have h2 := isInfix_append_of_left (truncate_text text ++ prompt_post) h
    simpa [build_prompt, List.append_assoc] using h2
  · simp only [build_prompt]
    rw [show prompt_pre none
      = "Please provide a concise summary of the following document.\n\nDocument:\n".data
      by decide]

/-- C4: the boundary normalization of `max_length` maps `None` and every
non-positive value to absent, and every positive value to itself. -/
theorem normalize_max_length_spec (n m : Int) (hn : 0 < n) (hm : m ≤ 0) :
    normalize_max_length none = none
      ∧ normalize_max_length (some m) = none
      ∧ normalize_max_length (some n) = some n := by
  refine ⟨rfl, ?_, ?_⟩
  · simp [normalize_max_length, hm]
  · simp [normalize_max_length, show ¬ n ≤ 0 by omega]

/-- Witness for C4 at the values -5, 0, 1 and 100. -/
theorem normalize_max_length_witness :
    (normalize_max_length none = none
      ∧ normalize_max_length (some (-5)) = none
      ∧ normalize_max_length (some 1) = some 1)
      ∧ (normalize_max_length none = none
      ∧ normalize_max_length (some 0) = none
      ∧ normalize_max_length (some 100) = some 100) :=
  ⟨normalize_max_length_spec 1 (-5) (by decide) (by decide),
   normalize_max_length_spec 100 0 (by decide) (by decide)⟩

/-- C5: DOCX extraction drops every paragraph whose stripped text is empty
and joins the remaining paragraphs with a blank line; in particular the
paragraph list `["Hello", "", "  ", "World"]` yields `"Hello\n\nWorld"`. -/
theorem docx_drops_blank_paragraphs (ps₁ ps₂ : List (List Char)) (p : List Char)
    (h : pyStrip p = []) :
    extract_docx_text ["Hello".data, "".data, "  ".data, "World".data]
        = "Hello\n\nWorld".data
      ∧ extract_docx_text (ps₁ ++ p :: ps₂) = extract_docx_text (ps₁ ++ ps₂) := by
  refine ⟨by decide, ?_⟩
  unfold extract_docx_text
  congr 1
  simp [List.filter_append, List.filter_cons, h]

/-- Witness for C5 at the whitespace paragraph. -/
theorem docx_drops_blank_paragraphs_witness :
    extract_docx_text ["Hello".data, "".data, "  ".data, "World".data]
        = "Hello\n\nWorld".data
      ∧ extract_docx_text (["Hello".data] ++ "  ".data :: ["World".data])
        = extract_docx_text (["Hello".data] ++ ["World".data]) :=
  docx_drops_blank_paragraphs ["Hello".data] ["World".data] "  ".data (by decide)

/-- C6: a PDF page whose extraction raises is simply omitted: the result
over pages with a failing page inserted anywhere equals the result over the
remaining pages, and a 3-page PDF whose middle page raises yields the texts
of pages 1 and 3 joined with a blank line. -/
theorem pdf_page_failure_skipped (l₁ l₂ : List (Option (List Char)))
    (p1 p3 : List Char) (h1 : p1 ≠ []) (h3 : p3 ≠ []) :
    extract_pdf_text (l₁ ++ none :: l₂) = extract_pdf_text (l₁ ++ l₂)
      ∧ extract_pdf_text [some p1, none, some p3] = p1 ++ '\n' :: '\n' :: p3 := by
  constructor
  · unfold extract_pdf_text
    rw [pageTexts_append, pageTexts_append]
    rfl
  · have e1 : p1.isEmpty = false := by
      cases p1 with
      | nil => exact absurd rfl h1
      | cons a l => rfl
    have e3 : p3.isEmpty = false := by
      cases p3 with
      | nil => exact absurd rfl h3
      | cons a l => rfl
    simp [extract_pdf_text, pageTexts, joinBlank, e1, e3]

/-- Witness for C6 at a concrete 3-page PDF with a failing middle page. -/
theorem pdf_page_failure_skipped_witness :
    extract_pdf_text ([some "a".data] ++ none :: []) = extract_pdf_text ([some "a".data] ++ [])
      ∧ extract_pdf_text [some "page one".data, none, some "page three".data]
        = "page one".data ++ '\n' :: '\n' :: "page three".data :=
  pdf_page_failure_skipped [some "a".data] [] "page one".data "page three".data
    (by decide) (by decide)

/-- C9: a PDF page whose extraction succeeds with empty text is also
omitted from the joined output, and every fragment that reaches the join is
non-empty (so empty pages create no consecutive separators). -/
theorem pdf_empty_page_omitted (l₁ l₂ : List (Option (List Char))) :
    extract_pdf_text (l₁ ++ some [] :: l₂) = extract_pdf_text (l₁ ++ l₂)
      ∧ ∀ pages t, t ∈ pageTexts pages → t ≠ [] := by
  constructor
  · unfold extract_pdf_text
    rw [pageTexts_append, pageTexts_append]
    rfl
  · intro pages
    induction pages with
    | nil => intro t h; simp [pageTexts] at h
    | cons a l ih =>
        cases a with
        | none => intro t h; exact ih t h
        | some s =>
            intro t h
            by_cases hs : s.isEmpty
            · simp [pageTexts, hs] at h
              exact ih t h
            · simp [pageTexts, hs] at h
              rcases h with h | h
              · subst h
                intro hnil
                subst hnil
                simp at hs
              · exact ih t h

/-- Witness for C9 at a concrete page list with an empty middle page. -/
theorem pdf_empty_page_omitted_witness :
    extract_pdf_text ([some "a".data] ++ some [] :: [some "b".data])
        = extract_pdf_text ([some "a".data] ++ [some "b".data])
      ∧ "a".data ≠ [] :=
  ⟨(pdf_empty_page_omitted [some "a".data] [some "b".data]).1,
   (pdf_empty_page_omitted [] []).2 [some "a".data, some [], some "b".data] "a".data
     (by decide)⟩

/-- C7: a request whose lower-cased filename extension is not one of
`.pdf`, `.docx`, `.doc` is rejected with status 400 before the upload is
saved and before extraction is invoked. -/
theorem unsupported_extension_rejected (env : RequestEnv)
    (h : pyLower env.ext ∉ supported_exts) :
    (summarize_document env).status = 400
      ∧ (summarize_document env).parseInvoked = false
      ∧ (summarize_document env).fileSaved = false := by
  unfold summarize_document
  simp [h]

/-- Witness for C7 at the extension `.txt`. -/
theorem unsupported_extension_rejected_witness :
    (summarize_document ⟨".txt".data, none, .ok "x".data, ⟨200, "hi".data, []⟩⟩).status = 400
      ∧ (summarize_document ⟨".txt".data, none, .ok "x".data, ⟨200, "hi".data, []⟩⟩).parseInvoked
        = false
      ∧ (summarize_document ⟨".txt".data, none, .ok "x".data, ⟨200, "hi".data, []⟩⟩).fileSaved
        = false :=
  unsupported_extension_rejected ⟨".txt".data, none, .ok "x".data, ⟨200, "hi".data, []⟩⟩
    (by decide)

/-- C8: `generate_summary` fails with the empty-response message exactly
when the service replies with status 200 and a `response` field that is
empty after stripping; on every success, the returned summary is the
stripped `response` field, is non-empty, and the status was 200. -/
theorem generate_summary_empty_response_iff (text : List Char) (ml : Option Int)
    (resp : OllamaResponse) :
    (generate_summary text ml resp = .error "Empty response from Ollama".data
        ↔ resp.status = 200 ∧ pyStrip resp.response = [])
      ∧ ∀ s, generate_summary text ml resp = .ok s
          → s = pyStrip resp.response ∧ s ≠ [] ∧ resp.status = 200 := by
  have hgen : generate_summary text ml resp
      = if resp.status ≠ 200 then
          .error ("Ollama API returned status ".data ++ (toString resp.status).data
            ++ ": ".data ++ resp.text)
        else if (pyStrip resp.response).isEmpty then
          .error "Empty response from Ollama".data
        else .ok (pyStrip resp.response) := rfl
  rw [hgen]
  by_cases hs : resp.status = 200
  · rw [if_neg (by simp [hs])]
    by_cases he : (pyStrip resp.response).isEmpty
    · rw [if_pos he]
      have he2 : pyStrip resp.response = [] := by simpa using he
      refine ⟨⟨fun _ => ⟨hs, he2⟩, fun _ => rfl⟩, ?_⟩
      intro s hok
      exact absurd hok (by simp)
    · rw [if_neg he]
      have he2 : pyStrip resp.response ≠ [] := by simpa using he
      constructor
      · constructor
        · intro h
          exact absurd h (by simp)
        · rintro ⟨-, h2⟩
          exact absurd h2 he2
      · intro s hok
        have hok2 : pyStrip resp.response = s := by simpa using hok
        refine ⟨hok2.symm, ?_, hs⟩
        rw [← hok2]
        exact he2
  · rw [if_pos hs]
    constructor
    · constructor
      · intro h
        rw [Except.error.injEq, List.append_assoc, List.append_assoc] at h
        exact absurd h (ollama_error_msg_ne_empty _)
      · rintro ⟨h200, -⟩
        exact absurd h200 hs
    · intro s hok
      exact absurd hok (by simp)

/-- Witness for C8 at a whitespace-only 200 reply and a successful reply. -/
theorem generate_summary_empty_response_iff_witness :
    (generate_summary "doc".data none ⟨200, "   ".data, []⟩
        = .error "Empty response from Ollama".data
        ↔ (200 = 200 ∧ pyStrip "   ".data = []))
      ∧ ("hi".data = pyStrip " hi ".data ∧ "hi".data ≠ [] ∧ (200 : Nat) = 200) :=
  ⟨(generate_summary_empty_response_iff "doc".data none ⟨200, "   ".data, []⟩).1,
   (generate_summary_empty_response_iff "doc".data none ⟨200, " hi ".data, []⟩).2
     "hi".data (by rfl)⟩

/-- C1 fails on the code: extraction that yields whitespace-only text is
surfaced with status 500, not a client-error status, because the
`HTTPException` with status 400 raised for empty text is caught by the
enclosing `except Exception` and re-raised as a 500; likewise an empty
response from the generation service (status 200, whitespace-only text)
surfaces as 500. This theorem evaluates the handler at both inputs. -/
theorem summarize_empty_text_is_server_error :
    (summarize_document ⟨".pdf".data, none, .ok "   ".data, ⟨200, "ok".data, []⟩⟩).status = 500
      ∧ (summarize_document ⟨".pdf".data, none, .ok "   ".data, ⟨200, "ok".data, []⟩⟩).detail
        = ("Failed to parse document: 400: Could not extract text from document."
            ++ " The file might be empty or corrupted.").data
      ∧ (summarize_document ⟨".docx".data, none, .ok "doc text".data, ⟨200, "   ".data, []⟩⟩).status
        = 500 := by
  decide

/-- C10: whenever the uploaded file was saved, the handler deletes it
before the request completes, on the success path and on every failure
path alike. -/
theorem summarize_cleanup_on_all_paths (env : RequestEnv) :
    (summarize_document env).fileDeleted = (summarize_document env).fileSaved := by
  by_cases hif : pyLower env.ext ∈ supported_exts <;>
    simp only [summarize_document, hif, if_true, if_false, reduceIte]
  all_goals repeat' split
  all_goals rfl
